import Mathlib

/-!
Shallow embedding of the webcam_art recording/preview pipeline
(`src/main.rs`, `src/bin/recorder.rs`, `src/bin/webcam.rs`) and proofs of
the specification's claims about it.
-/

namespace WebcamArt

/-! ## Glyph renderer (`get_ascii_char`, `process_frame`) -/

/-- The fixed glyph palette `ASCII_CHARS` (recorder.rs line 42 / main.rs line 31). -/
def asciiGlyphs : List Char := [' ', '.', ':', '-', '=', '+', '*', '#', '%', '@']

/-- The index computation `(value as usize * (ASCII_CHARS.len() - 1)) / 255`
(recorder.rs line 71). The `u8` argument is modelled as a `Nat`; call sites
only supply values below 256. -/
def glyphIndex (value : Nat) : Nat := value * (asciiGlyphs.length - 1) / 255

/-- `get_ascii_char` (recorder.rs lines 70-78): palette lookup at `glyphIndex`,
clamped to the last glyph when the index is not below the palette length. -/
def get_ascii_char (value : Nat) : Char :=
  let index := glyphIndex value
  if h : index < asciiGlyphs.length then
    asciiGlyphs.get ⟨index, h⟩
  else
    asciiGlyphs.get ⟨asciiGlyphs.length - 1, by decide⟩

/-- A raw video frame: a rows × cols grid of 3-channel (b, g, r) byte samples.
Pixel access is total, mirroring `at_2d::<u8>(y, x).unwrap_or(&0)`. -/
structure Frame where
  rows : Nat
  cols : Nat
  pixel : Nat → Nat → Nat × Nat × Nat

/-- OpenCV's fixed-point BGR→GRAY conversion of one pixel
(`COLOR_BGR2GRAY`): `(R*4899 + G*9617 + B*1868 + 8192) >> 14`. -/
def bgr2gray (b g r : Nat) : Nat := (r * 4899 + g * 9617 + b * 1868 + 8192) / 16384

/-- A grayscale image: a rows × cols grid of byte samples. -/
structure GrayFrame where
  rows : Nat
  cols : Nat
  pixel : Nat → Nat → Nat

/-- The `imgproc::cvt_color(frame, &mut gray, COLOR_BGR2GRAY, 0)` call as the
opencv crate exposes it: a fallible operation. OpenCV rejects an empty source
Mat (its assertion requires a non-empty input), so a zero-row or zero-column
frame returns an error; on a non-empty frame the conversion succeeds, yielding
the fixed-point grayscale of every pixel. -/
def cvt_color (f : Frame) : Option GrayFrame :=
  if f.rows = 0 ∨ f.cols = 0 then none
  else
    some ⟨f.rows, f.cols, fun y x =>
      let (b, g, r) := f.pixel y x
      bgr2gray b g r⟩

/-- `process_frame` (recorder.rs lines 80-104 / main.rs lines 61-93): first
`cvt_color(..).unwrap()` — `none` models the process aborting when the
conversion fails — then the zero-row/zero-column guard returning the empty
string, then one line per row (step 1), one glyph per column (step 1), joined
by newlines. Pixel access mirrors `at_2d::<u8>(y, x).unwrap_or(&0)`. -/
def process_frame (f : Frame) : Option String :=
  match cvt_color f with
  | none => none
  | some gray =>
    if gray.rows = 0 ∨ gray.cols = 0 then some ""
    else
      some (String.intercalate "\n"
        ((List.range gray.rows).map (fun y =>
          String.mk ((List.range gray.cols).map (fun x =>
            get_ascii_char (gray.pixel y x))))))

/-! ## Loop pacing (C1) -/

/-- `TARGET_FPS` (recorder.rs line 43 / main.rs line 32). -/
def TARGET_FPS : Nat := 30

/-- `target_frame_time = Duration::from_micros(1_000_000 / TARGET_FPS)`
(recorder.rs line 252 / main.rs line 101), in microseconds. -/
def targetFrameMicros : Nat := 1000000 / TARGET_FPS

/-- The Live Preview Loop's end-of-iteration sleep (recorder.rs lines 383-386 /
main.rs lines 172-176), in microseconds, as a function of the iteration's
processing time: sleep the remainder of the budget when under it, else nothing. -/
def previewPacingSleepMicros (processing : Nat) : Nat :=
  if processing < targetFrameMicros then targetFrameMicros - processing else 0

/-- The recording worker's end-of-iteration sleep (recorder.rs line 213):
`thread::sleep(Duration::from_millis((1000.0 / FPS) as u64))`. The truncated
constant `(1000.0 / 30.0) as u64 = 33` milliseconds, independent of the
iteration's processing time (the argument is ignored, as in the source). -/
def workerPacingSleepMicros (_processing : Nat) : Nat := 1000 * 33

/-! ## Preview-loop iteration outcome (C2) -/

/-- Result of one `camera.read` call as observed by a preview iteration. -/
inductive ReadOutcome
  | failed
  | emptyFrame
  | goodFrame
deriving DecidableEq

/-- How a preview iteration proceeds after the camera read. -/
inductive PreviewStep
  | continueWithVideo
  | continueSkipVideo
  | exitWithError
deriving DecidableEq

/-- One iteration of `run_app` in main.rs (lines 113-135): the read error is
discarded with `.ok()`, an empty frame hits `continue`, a good frame is
resized and processed. -/
def mainPreviewIter : ReadOutcome → PreviewStep
  | .failed => .continueSkipVideo
  | .emptyFrame => .continueSkipVideo
  | .goodFrame => .continueWithVideo

/-- One iteration of `run_app` in recorder.rs (lines 265-288): a read error is
mapped into an `io::Error` and propagated with `?`, returning from `run_app`;
an empty frame skips the resize/update work but the loop continues. -/
def recorderPreviewIter : ReadOutcome → PreviewStep
  | .failed => .exitWithError
  | .emptyFrame => .continueSkipVideo
  | .goodFrame => .continueWithVideo

/-! ## Audio ring buffer (C8) -/

/-- `SAMPLE_RATE` (recorder.rs line 45). -/
def SAMPLE_RATE : Nat := 48000

/-- `CHANNELS` (recorder.rs line 46). -/
def CHANNELS : Nat := 1

/-- Capacity of `HeapRb::<f32>::new(SAMPLE_RATE as usize * CHANNELS as usize)`
(recorder.rs line 171). -/
def ringCapacity : Nat := SAMPLE_RATE * CHANNELS

/-- The bounded single-producer/single-consumer ring buffer, modelled by its
fixed capacity and current queued contents (oldest first). The sample type is
abstract: the claims about the buffer concern only counts and order. -/
structure RingBuf (α : Type) where
  capacity : Nat
  data : List α

/-- `producer.push_slice(data)` (recorder.rs line 177): append as many leading
elements of `xs` as fit in the free capacity, discard the rest, and return the
buffer together with the number of elements actually stored. Non-blocking and
infallible. -/
def push_slice {α : Type} (rb : RingBuf α) (xs : List α) : RingBuf α × Nat :=
  let free := rb.capacity - rb.data.length
  let pushed := xs.take free
  ({ rb with data := rb.data ++ pushed }, pushed.length)

/-! ## Recording session controller key handling (C6, C7) -/

/-- The controller state visible to the key handler in `run_app`
(recorder.rs lines 253-254 and the `App` field `is_recording`):
`appRecording` is `app.is_recording`, `flag` the shared `is_recording`
atomic, `worker` the `recording_thread` slot (a handle identifier),
`nextId` a supply of fresh handle identifiers. -/
structure CtrlState where
  appRecording : Bool
  flag : Bool
  worker : Option Nat
  nextId : Nat
deriving DecidableEq

/-- Observable actions of the key handler, in program order. -/
inductive CtrlAct
  | storeFlag (b : Bool)
  | spawnWorker (id : Nat)
  | joinWorker (id : Nat)
  | logWorkerError
deriving DecidableEq

/-- The join-and-log sequence `if let Some(handle) = recording_thread.lock().take()
{ match handle.join() { ... log ... } }` (recorder.rs lines 323-334 and 356-367):
join the worker when one exists, and log (not return) its error when the joined
result is an error. -/
def joinActions (w : Option Nat) (res : Except String Unit) : List CtrlAct :=
  match w with
  | none => []
  | some id =>
    CtrlAct.joinWorker id ::
      (match res with
       | .error _ => [CtrlAct.logWorkerError]
       | .ok _ => [])

/-- Handling of `KeyCode::Char('q')` (recorder.rs lines 318-338): when recording,
store `false` into the flag and join the worker; in every case return `Ok(())`
from `run_app`. Result: new state, action trace, and the error value the stop
handling propagates to the caller (always `none` in the source). `res` is the
environment-supplied result of the joined worker. -/
def handleKeyQ (s : CtrlState) (res : Except String Unit) :
    CtrlState × List CtrlAct × Option String :=
  if s.appRecording then
    ({ s with flag := false, worker := none },
     CtrlAct.storeFlag false :: joinActions s.worker res, none)
  else
    (s, [], none)

/-- Handling of `KeyCode::Char('r')` (recorder.rs lines 339-369): when not
recording, set `app.is_recording`, store `true` into the flag and spawn the
worker; when recording, clear `app.is_recording`, store `false` and join the
worker, logging its error. -/
def handleKeyR (s : CtrlState) (res : Except String Unit) :
    CtrlState × List CtrlAct :=
  if s.appRecording then
    ({ s with appRecording := false, flag := false, worker := none },
     CtrlAct.storeFlag false :: joinActions s.worker res)
  else
    ({ s with appRecording := true, flag := true,
              worker := some s.nextId, nextId := s.nextId + 1 },
     [CtrlAct.storeFlag true, CtrlAct.spawnWorker s.nextId])

/-! ## The recording worker `start_recording` (C3, C9, C10) -/

/-- Presence of the three output files (recorder.rs lines 145-147):
`output_ascii.mp4`, `output.opus`, `final_output.mp4`. -/
structure FsState where
  tempVideo : Bool
  tempAudio : Bool
  finalOut : Bool
deriving DecidableEq

/-- Observable actions of `start_recording`, in program order. `runFfmpeg b`
records that the muxer subprocess ran and exited with success `b`. -/
inductive RecAct
  | truncVideo
  | truncAudio
  | camRead
  | videoWrite
  | audioEncode
  | audioWrite
  | dropStream
  | runFfmpeg (success : Bool)
  | removeVideo
  | removeAudio
deriving DecidableEq

/-- Success or failure of each fallible step of the setup phase of
`start_recording` (recorder.rs lines 150-187), in program order:
`VideoWriter::fourcc`, `VideoWriter::new`, `default_input_device`,
`OpusEncoder::new`, `build_input_stream`, `stream.play`,
`File::create(&output_audio)`. -/
structure SetupEnv where
  fourccOk : Bool
  videoWriterOk : Bool
  deviceAvailable : Bool
  encoderOk : Bool
  streamBuildOk : Bool
  streamPlayOk : Bool
  audioFileOk : Bool
deriving DecidableEq

/-- Actions and outcome of the setup phase, following the source order:
`VideoWriter::new` truncates the temp video file; `File::create` truncates the
temp audio file, and is reached only after the whole audio setup succeeded.
Each failing step returns early with `?`. -/
def setupActs (env : SetupEnv) : List RecAct × Bool :=
  if !env.fourccOk then ([], false)
  else if !env.videoWriterOk then ([], false)
  else if !env.deviceAvailable then ([RecAct.truncVideo], false)
  else if !env.encoderOk then ([RecAct.truncVideo], false)
  else if !env.streamBuildOk then ([RecAct.truncVideo], false)
  else if !env.streamPlayOk then ([RecAct.truncVideo], false)
  else if !env.audioFileOk then ([RecAct.truncVideo], false)
  else ([RecAct.truncVideo, RecAct.truncAudio], true)

/-- Whether every setup step succeeds. -/
def setupAll (env : SetupEnv) : Bool :=
  env.fourccOk && env.videoWriterOk && env.deviceAvailable && env.encoderOk &&
    env.streamBuildOk && env.streamPlayOk && env.audioFileOk

/-- The environment-determined fate of one worker-loop iteration
(recorder.rs lines 189-214): the camera read result, whether
`render_ascii_frame` and `video_writer.write` succeed, how many full 960-sample
buffers the audio drain finds, and whether `encode_float` and `write_all`
succeed on them. -/
structure IterSpec where
  read : ReadOutcome
  renderOk : Bool
  videoWriteOk : Bool
  audioChunks : Nat
  encodeOk : Bool
  audioWriteOk : Bool
deriving DecidableEq

/-- The audio drain `while consumer.len() >= frame_buffer.len()` (recorder.rs
lines 204-211): nothing when no full buffer is available; otherwise encode and
append each buffer, aborting at the first codec or sink failure. -/
def audioDrainActs (it : IterSpec) : List RecAct × Bool :=
  if it.audioChunks = 0 then ([], true)
  else if !it.encodeOk then ([RecAct.audioEncode], false)
  else if !it.audioWriteOk then ([RecAct.audioEncode, RecAct.audioWrite], false)
  else ((List.replicate it.audioChunks [RecAct.audioEncode, RecAct.audioWrite]).flatten, true)

/-- One worker-loop iteration (recorder.rs lines 189-213): read under the camera
lock (`?` on failure), skip the video work on an empty frame, otherwise render
and append to the video sink (`?` on failure), then drain the audio. -/
def runIter (it : IterSpec) : List RecAct × Bool :=
  match it.read with
  | .failed => ([RecAct.camRead], false)
  | .emptyFrame =>
    (RecAct.camRead :: (audioDrainActs it).1, (audioDrainActs it).2)
  | .goodFrame =>
    if !it.renderOk then ([RecAct.camRead], false)
    else if !it.videoWriteOk then ([RecAct.camRead, RecAct.videoWrite], false)
    else
      (RecAct.camRead :: RecAct.videoWrite :: (audioDrainActs it).1, (audioDrainActs it).2)

/-- Whether an iteration completes without a fatal error. -/
def iterOk (it : IterSpec) : Bool := (runIter it).2

/-- The worker loop over the iterations that occur before the liveness flag is
observed false: runs each iteration in order, stopping at the first failure. -/
def runLoop : List IterSpec → List RecAct × Bool
  | [] => ([], true)
  | it :: rest =>
    if (runIter it).2 then
      ((runIter it).1 ++ (runLoop rest).1, (runLoop rest).2)
    else ((runIter it).1, false)

/-- Outcome of the muxer subprocess invocation (recorder.rs lines 220-232):
`Command::output()` itself may fail (launch failure), otherwise the process
exits with a status code, zero meaning success. -/
inductive MuxOutcome
  | launchFailure
  | exited (code : Nat)
deriving DecidableEq

/-- `start_recording` (recorder.rs lines 143-244) as a trace transformer: the
setup phase, then the worker loop, then `drop(stream)`, the ffmpeg invocation,
the status check, and on success the removal of both temporary files. Every
failure returns early with the error, performing none of the later actions. -/
def start_recording (env : SetupEnv) (iters : List IterSpec) (mux : MuxOutcome) :
    List RecAct × Except String Unit :=
  if !(setupActs env).2 then ((setupActs env).1, .error "setup failed")
  else if !(runLoop iters).2 then
    ((setupActs env).1 ++ (runLoop iters).1, .error "worker loop failed")
  else
    match mux with
    | .launchFailure =>
      ((setupActs env).1 ++ (runLoop iters).1 ++ [RecAct.dropStream],
       .error "ffmpeg launch failed")
    | .exited 0 =>
      ((setupActs env).1 ++ (runLoop iters).1 ++
        [RecAct.dropStream, RecAct.runFfmpeg true,
         RecAct.removeVideo, RecAct.removeAudio], .ok ())
    | .exited (_ + 1) =>
      ((setupActs env).1 ++ (runLoop iters).1 ++
        [RecAct.dropStream, RecAct.runFfmpeg false],
       .error "ffmpeg command failed")

/-- Effect of one action on the filesystem. `VideoWriter::new` and
`File::create` create-or-truncate their file; a successful ffmpeg run creates
the final output (per the muxer contract); the removals delete the temps. -/
def applyAct (fs : FsState) : RecAct → FsState
  | .truncVideo => { fs with tempVideo := true }
  | .truncAudio => { fs with tempAudio := true }
  | .runFfmpeg true => { fs with finalOut := true }
  | .removeVideo => { fs with tempVideo := false }
  | .removeAudio => { fs with tempAudio := false }
  | _ => fs

/-- Filesystem state after a trace of actions. -/
def applyActs (fs : FsState) (acts : List RecAct) : FsState :=
  acts.foldl applyAct fs

/-! ## Helper lemmas -/

/-- Loop-body actions: the actions a worker-loop iteration can emit. -/
def isLoopAct : RecAct → Bool
  | .camRead => true
  | .videoWrite => true
  | .audioEncode => true
  | .audioWrite => true
  | _ => false

lemma audioDrainActs_loop (it : IterSpec) :
    ∀ a ∈ (audioDrainActs it).1, isLoopAct a = true := by
  intro a ha
  unfold audioDrainActs at ha
  split at ha
  · simp at ha
  · split at ha
    · simp at ha
      subst ha
      rfl
    · split at ha
      · simp at ha
        rcases ha with h | h <;> subst h <;> rfl
      · simp [List.mem_flatten, List.mem_replicate] at ha
        rcases ha with ⟨l, ⟨-, rfl⟩, hmem⟩
        simp at hmem
        rcases hmem with h | h <;> subst h <;> rfl

lemma runIter_loop (it : IterSpec) :
    ∀ a ∈ (runIter it).1, isLoopAct a = true := by
  intro a ha
  unfold runIter at ha
  split at ha
  · simp at ha
    subst ha
    rfl
  · simp at ha
    rcases ha with h | h
    · subst h
      rfl
    · exact audioDrainActs_loop it a h
  · split at ha
    · simp at ha
      subst ha
      rfl
    · split at ha
      · simp at ha
        rcases ha with h | h <;> subst h <;> rfl
      · simp at ha
        rcases ha with h | h | h
        · subst h
          rfl
        · subst h
          rfl
        · exact audioDrainActs_loop it a h

lemma runLoop_loop (iters : List IterSpec) :
    ∀ a ∈ (runLoop iters).1, isLoopAct a = true := by
  induction iters with
  | nil =>
    intro a ha
    simp [runLoop] at ha
  | cons it rest ih =>
    intro a ha
    unfold runLoop at ha
    split at ha
    · simp at ha
      rcases ha with h | h
      · exact runIter_loop it a h
      · exact ih a h
    · exact runIter_loop it a ha

lemma applyAct_of_loopAct (fs : FsState) (a : RecAct) (h : isLoopAct a = true) :
    applyAct fs a = fs := by
  cases a <;> first | rfl | exact absurd h (by simp [isLoopAct])

lemma applyActs_of_loopActs (acts : List RecAct)
    (h : ∀ a ∈ acts, isLoopAct a = true) : ∀ fs : FsState, applyActs fs acts = fs := by
  induction acts with
  | nil =>
    intro fs
    rfl
  | cons a rest ih =>
    intro fs
    have ha : isLoopAct a = true := h a (by simp)
    have hrest : ∀ b ∈ rest, isLoopAct b = true := fun b hb => h b (by simp [hb])
    show applyActs (applyAct fs a) rest = fs
    rw [applyAct_of_loopAct fs a ha]
    exact ih hrest fs

lemma applyActs_append (fs : FsState) (l1 l2 : List RecAct) :
    applyActs fs (l1 ++ l2) = applyActs (applyActs fs l1) l2 := by
  unfold applyActs
  exact List.foldl_append applyAct fs l1 l2

lemma setupActs_of_all (env : SetupEnv) (h : setupAll env = true) :
    setupActs env = ([RecAct.truncVideo, RecAct.truncAudio], true) := by
  unfold setupAll at h
  simp only [Bool.and_eq_true] at h
  obtain ⟨⟨⟨⟨⟨⟨h1, h2⟩, h3⟩, h4⟩, h5⟩, h6⟩, h7⟩ := h
  simp [setupActs, h1, h2, h3, h4, h5, h6, h7]

lemma runLoop_false_of_any_fail (iters : List IterSpec)
    (h : iters.any (fun it => !iterOk it) = true) : (runLoop iters).2 = false := by
  induction iters with
  | nil => simp at h
  | cons it rest ih =>
    simp only [List.any_cons, Bool.or_eq_true] at h
    unfold runLoop
    by_cases hok : (runIter it).2 = true
    · have hrest : rest.any (fun it => !iterOk it) = true := by
        rcases h with h | h
        · exact absurd hok (by simpa [iterOk] using h)
        · exact h
      simp [hok, ih hrest]
    · simp [Bool.not_eq_true] at hok
      simp [hok]

lemma spawn_notin_joinActions (id : Nat) (w : Option Nat) (res : Except String Unit) :
    CtrlAct.spawnWorker id ∉ joinActions w res := by
  cases w with
  | none => simp [joinActions]
  | some j =>
    cases res with
    | error e => simp [joinActions]
    | ok u => simp [joinActions]

lemma storeTrue_notin_joinActions (w : Option Nat) (res : Except String Unit) :
    CtrlAct.storeFlag true ∉ joinActions w res := by
  cases w with
  | none => simp [joinActions]
  | some j =>
    cases res with
    | error e => simp [joinActions]
    | ok u => simp [joinActions]

/-! ## Claim theorems -/

/-- C1 counterexample: at an iteration that overruns the budget (40000 μs of
processing against a 33333 μs target) the claim requires a zero sleep, but the
recording worker sleeps its fixed 33 ms regardless. -/
theorem C1_pacing_counterexample :
    workerPacingSleepMicros 40000 ≠
      (if 40000 < targetFrameMicros then targetFrameMicros - 40000 else 0) := by
  decide

/-- C1 (amended): the Live Preview Loop's pacing sleep is exactly the remainder
of the 33333 μs frame budget when the iteration completes under it and zero
when it overruns; the recording worker instead sleeps a fixed 33 ms every
iteration, independent of the iteration's processing time. -/
theorem C1_pacing_amended (p : Nat) :
    (p < targetFrameMicros → p + previewPacingSleepMicros p = targetFrameMicros)
    ∧ (targetFrameMicros ≤ p → previewPacingSleepMicros p = 0)
    ∧ workerPacingSleepMicros p = 33000
    ∧ targetFrameMicros = 33333 := by
  have ht : targetFrameMicros = 33333 := rfl
  refine ⟨?_, ?_, rfl, ht⟩
  · intro h
    unfold previewPacingSleepMicros
    rw [if_pos h]
    omega
  · intro h
    unfold previewPacingSleepMicros
    rw [if_neg (Nat.not_lt.mpr h)]

/-- C1 witness: a 10000 μs iteration is padded to exactly the 33333 μs budget
by the preview loop, and a 40000 μs iteration gets no preview sleep. -/
theorem C1_pacing_amended_witness :
    10000 + previewPacingSleepMicros 10000 = targetFrameMicros
    ∧ previewPacingSleepMicros 40000 = 0 :=
  ⟨(C1_pacing_amended 10000).1 (by decide), (C1_pacing_amended 40000).2.1 (by decide)⟩

/-- C2 counterexample: in recorder.rs's Live Preview Loop a failed camera read
is propagated with the question-mark operator and terminates `run_app`, contrary
to the claim that a transient read failure never terminates the preview loop. -/
theorem C2_preview_counterexample :
    recorderPreviewIter ReadOutcome.failed = PreviewStep.exitWithError := rfl

/-- C2 (amended): in main.rs the preview loop skips the iteration's video work
and continues on a failed read or an empty frame; in recorder.rs the preview
loop skips video work only on an empty frame, while a failed read terminates
`run_app` with the error. -/
theorem C2_preview_read (o : ReadOutcome) :
    mainPreviewIter ReadOutcome.failed = PreviewStep.continueSkipVideo
    ∧ mainPreviewIter ReadOutcome.emptyFrame = PreviewStep.continueSkipVideo
    ∧ mainPreviewIter ReadOutcome.goodFrame = PreviewStep.continueWithVideo
    ∧ recorderPreviewIter ReadOutcome.emptyFrame = PreviewStep.continueSkipVideo
    ∧ recorderPreviewIter ReadOutcome.goodFrame = PreviewStep.continueWithVideo
    ∧ recorderPreviewIter ReadOutcome.failed = PreviewStep.exitWithError
    ∧ (mainPreviewIter o ≠ PreviewStep.exitWithError) := by
  refine ⟨rfl, rfl, rfl, rfl, rfl, rfl, ?_⟩
  cases o <;> simp [mainPreviewIter]

/-- C2 witness: main.rs's preview iteration does not exit even on a failed
read. -/
theorem C2_preview_read_witness :
    mainPreviewIter ReadOutcome.failed ≠ PreviewStep.exitWithError :=
  (C2_preview_read ReadOutcome.failed).2.2.2.2.2.2

/-- C4 (code bug): on a zero-row or zero-column frame, `process_frame` aborts
at the unwrap of `cvt_color` — none — before the degenerate-input guard is
reached, instead of returning the empty block the claim (and the guard at
recorder.rs lines 86-88) intends; that guard is unreachable, since whenever
`cvt_color` succeeds its condition is false; on non-degenerate frames
`process_frame` does return without error. -/
theorem C4_process_frame_degenerate_panics (f : Frame) (h : f.rows = 0 ∨ f.cols = 0) :
    process_frame f = none
    ∧ (∀ g : Frame, ∀ gray : GrayFrame, cvt_color g = some gray →
        ¬ (gray.rows = 0 ∨ gray.cols = 0))
    ∧ (∀ g : Frame, ¬ (g.rows = 0 ∨ g.cols = 0) → process_frame g ≠ none) := by
  refine ⟨?_, ?_, ?_⟩
  · unfold process_frame cvt_color
    rw [if_pos h]
  · intro g gray hg
    unfold cvt_color at hg
    by_cases hc : g.rows = 0 ∨ g.cols = 0
    · rw [if_pos hc] at hg
      exact absurd hg (by simp)
    · rw [if_neg hc] at hg
      obtain rfl := Option.some_inj.mp hg
      simpa using hc
  · intro g hg
    simp [process_frame, cvt_color, hg]

/-- C4 witness: a concrete zero-row frame makes `process_frame` abort rather
than produce the empty block, while a concrete 1 × 1 frame succeeds. -/
theorem C4_process_frame_degenerate_panics_witness :
    process_frame ⟨0, 5, fun _ _ => (0, 0, 0)⟩ = none
    ∧ process_frame ⟨1, 1, fun _ _ => (0, 0, 0)⟩ ≠ none :=
  ⟨(C4_process_frame_degenerate_panics ⟨0, 5, fun _ _ => (0, 0, 0)⟩ (Or.inl rfl)).1,
   (C4_process_frame_degenerate_panics ⟨0, 5, fun _ _ => (0, 0, 0)⟩ (Or.inl rfl)).2.2
     ⟨1, 1, fun _ _ => (0, 0, 0)⟩ (by simp)⟩

/-- C5: for every sample value v ≤ 255 the glyph index is
`v * (N - 1) / 255` with integer division for the N = 10 palette, lies in
`[0, N - 1]`, and is monotonically non-decreasing; whenever the computed index
is not below the palette length, `get_ascii_char` clamps to the last glyph. -/
theorem C5_glyph_index (v : Nat) (hv : v ≤ 255) :
    glyphIndex v = v * (asciiGlyphs.length - 1) / 255
    ∧ glyphIndex v ≤ asciiGlyphs.length - 1
    ∧ (∀ w, w ≤ v → glyphIndex w ≤ glyphIndex v)
    ∧ ∀ u, ¬ glyphIndex u < asciiGlyphs.length →
        get_ascii_char u = asciiGlyphs.get ⟨asciiGlyphs.length - 1, by decide⟩ := by
  refine ⟨rfl, ?_, ?_, ?_⟩
  · show v * (asciiGlyphs.length - 1) / 255 ≤ asciiGlyphs.length - 1
    have h1 : v * (asciiGlyphs.length - 1) ≤ 255 * (asciiGlyphs.length - 1) :=
      Nat.mul_le_mul_right _ hv
    have h2 : v * (asciiGlyphs.length - 1) / 255 ≤ 255 * (asciiGlyphs.length - 1) / 255 :=
      Nat.div_le_div_right h1
    simpa [asciiGlyphs] using h2
  · intro w hw
    exact Nat.div_le_div_right (Nat.mul_le_mul_right _ hw)
  · intro u hu
    unfold get_ascii_char
    simp [hu]

/-- C5 witness: the index of 128 is 4, within range, and the index of 100
(namely 3) does not exceed it. -/
theorem C5_glyph_index_witness :
    glyphIndex 128 ≤ asciiGlyphs.length - 1 ∧ glyphIndex 100 ≤ glyphIndex 128 :=
  ⟨(C5_glyph_index 128 (by decide)).2.1,
   (C5_glyph_index 128 (by decide)).2.2.1 100 (by decide)⟩

/-- C6: when a Session is already active, the 'r' key spawns no worker thread
and issues no start (no `store(true)`, hence no `start_recording` and no
truncation of temp files); conversely a spawn can only come from the
not-recording state. -/
theorem C6_single_session (s : CtrlState) (res : Except String Unit)
    (h : s.appRecording = true) :
    (∀ id, CtrlAct.spawnWorker id ∉ (handleKeyR s res).2)
    ∧ CtrlAct.storeFlag true ∉ (handleKeyR s res).2
    ∧ (∀ s2 res2 id, CtrlAct.spawnWorker id ∈ (handleKeyR s2 res2).2 →
        s2.appRecording = false) := by
  refine ⟨?_, ?_, ?_⟩
  · intro id hmem
    simp only [handleKeyR, h, if_pos, List.mem_cons] at hmem
    rcases hmem with hmem | hmem
    · exact absurd hmem (by simp)
    · exact spawn_notin_joinActions id s.worker res hmem
  · intro hmem
    simp only [handleKeyR, h, if_pos, List.mem_cons] at hmem
    rcases hmem with hmem | hmem
    · exact absurd hmem (by simp)
    · exact storeTrue_notin_joinActions s.worker res hmem
  · intro s2 res2 id hmem
    by_cases h2 : s2.appRecording = true
    · exfalso
      simp only [handleKeyR, h2, if_pos, List.mem_cons] at hmem
      rcases hmem with hmem | hmem
      · exact absurd hmem (by simp)
      · exact spawn_notin_joinActions id s2.worker res2 hmem
    · simpa using h2

/-- C6 witness: with a Session active (worker handle 0), the 'r' key does not
spawn the next worker handle. -/
theorem C6_single_session_witness :
    CtrlAct.spawnWorker 1 ∉ (handleKeyR ⟨true, true, some 0, 1⟩ (Except.ok ())).2 :=
  (C6_single_session ⟨true, true, some 0, 1⟩ (Except.ok ()) rfl).1 1

/-- C7 counterexample: stopping via 'q' with a worker that returned an error
yields no propagated error (`run_app` returns `Ok(())`); the error is only
logged, contrary to the claim that the stop propagates the worker's error. -/
theorem C7_stop_counterexample :
    (handleKeyQ ⟨true, true, some 0, 1⟩ (Except.error "worker failed")).2.2 = none
    ∧ CtrlAct.logWorkerError ∈
        (handleKeyQ ⟨true, true, some 0, 1⟩ (Except.error "worker failed")).2.1 := by
  exact ⟨rfl, by simp [handleKeyQ, joinActions]⟩

/-- C7 (amended): every stop of an active Session ('r' toggle while recording,
or 'q' while recording) first stores false into the liveness flag and then
joins the worker before the stop handling returns; the worker's error, if any,
is logged rather than propagated to the caller; after the stop the flag reads
false. -/
theorem C7_stop_semantics (s : CtrlState) (id : Nat) (res : Except String Unit)
    (hrec : s.appRecording = true) (hw : s.worker = some id) :
    (handleKeyQ s res).2.1 =
      CtrlAct.storeFlag false :: CtrlAct.joinWorker id ::
        (match res with
         | .error _ => [CtrlAct.logWorkerError]
         | .ok _ => [])
    ∧ (handleKeyQ s res).1.flag = false
    ∧ (handleKeyQ s res).2.2 = none
    ∧ (handleKeyR s res).2 =
      CtrlAct.storeFlag false :: CtrlAct.joinWorker id ::
        (match res with
         | .error _ => [CtrlAct.logWorkerError]
         | .ok _ => [])
    ∧ (handleKeyR s res).1.flag = false := by
  cases res <;> simp [handleKeyQ, handleKeyR, hrec, hw, joinActions]

/-- C7 witness: a concrete stop via 'q' (worker handle 5, clean worker result)
emits exactly store-false then join, and leaves the flag false. -/
theorem C7_stop_semantics_witness :
    (handleKeyQ ⟨true, true, some 5, 6⟩ (Except.ok ())).1.flag = false
    ∧ (handleKeyQ ⟨true, true, some 5, 6⟩ (Except.ok ())).2.1 =
        [CtrlAct.storeFlag false, CtrlAct.joinWorker 5] := by
  have h := C7_stop_semantics ⟨true, true, some 5, 6⟩ 5 (Except.ok ()) rfl rfl
  exact ⟨h.2.1, h.1⟩

/-- C8: a bulk push into the audio ring buffer stores the longest prefix of the
input that fits in the free capacity, reports how many samples were stored,
discards the overflow without error, never grows the buffer beyond its fixed
capacity, and the capacity used by `start_recording` is one second of mono
audio at 48000 Hz. -/
theorem C8_ring_push (α : Type) (rb : RingBuf α) (xs : List α)
    (h : rb.data.length ≤ rb.capacity) :
    (push_slice rb xs).1.data.length ≤ rb.capacity
    ∧ (push_slice rb xs).1.capacity = rb.capacity
    ∧ (push_slice rb xs).2 = min (rb.capacity - rb.data.length) xs.length
    ∧ (push_slice rb xs).1.data = rb.data ++ xs.take (rb.capacity - rb.data.length)
    ∧ ringCapacity = SAMPLE_RATE * CHANNELS
    ∧ ringCapacity = 48000 := by
  unfold push_slice
  refine ⟨?_, rfl, ?_, rfl, rfl, rfl⟩
  · simp only [List.length_append, List.length_take]
    omega
  · simp only [List.length_take]

/-- C8 witness: pushing three samples into a capacity-3 buffer holding two
stores exactly one sample and keeps the buffer at capacity. -/
theorem C8_ring_push_witness :
    (push_slice (RingBuf.mk 3 [1, 2] : RingBuf Nat) [7, 8, 9]).1.data = [1, 2, 7]
    ∧ (push_slice (RingBuf.mk 3 [1, 2] : RingBuf Nat) [7, 8, 9]).2 = 1 := by
  have h := C8_ring_push Nat (RingBuf.mk 3 [1, 2]) [7, 8, 9] (by decide)
  refine ⟨?_, ?_⟩
  · rw [h.2.2.2.1]
    rfl
  · rw [h.2.2.1]
    decide

lemma removeVideo_notin_runLoop (iters : List IterSpec) :
    RecAct.removeVideo ∉ (runLoop iters).1 := fun h => by
  simpa [isLoopAct] using runLoop_loop iters _ h

lemma removeAudio_notin_runLoop (iters : List IterSpec) :
    RecAct.removeAudio ∉ (runLoop iters).1 := fun h => by
  simpa [isLoopAct] using runLoop_loop iters _ h

lemma runFfmpeg_notin_runLoop (iters : List IterSpec) (b : Bool) :
    RecAct.runFfmpeg b ∉ (runLoop iters).1 := fun h => by
  simpa [isLoopAct] using runLoop_loop iters _ h

lemma start_recording_trace_exit0 (env : SetupEnv) (iters : List IterSpec)
    (hs : setupAll env = true) (hl : (runLoop iters).2 = true) :
    start_recording env iters (MuxOutcome.exited 0) =
      ([RecAct.truncVideo, RecAct.truncAudio] ++ (runLoop iters).1 ++
        [RecAct.dropStream, RecAct.runFfmpeg true,
         RecAct.removeVideo, RecAct.removeAudio], Except.ok ()) := by
  have hsetup := setupActs_of_all env hs
  simp [start_recording, hsetup, hl]

lemma start_recording_trace_exitS (env : SetupEnv) (iters : List IterSpec) (c : Nat)
    (hs : setupAll env = true) (hl : (runLoop iters).2 = true) :
    start_recording env iters (MuxOutcome.exited (c + 1)) =
      ([RecAct.truncVideo, RecAct.truncAudio] ++ (runLoop iters).1 ++
        [RecAct.dropStream, RecAct.runFfmpeg false],
       Except.error "ffmpeg command failed") := by
  have hsetup := setupActs_of_all env hs
  simp [start_recording, hsetup, hl]

lemma start_recording_trace_launchFail (env : SetupEnv) (iters : List IterSpec)
    (hs : setupAll env = true) (hl : (runLoop iters).2 = true) :
    start_recording env iters MuxOutcome.launchFailure =
      ([RecAct.truncVideo, RecAct.truncAudio] ++ (runLoop iters).1 ++
        [RecAct.dropStream], Except.error "ffmpeg launch failed") := by
  have hsetup := setupActs_of_all env hs
  simp [start_recording, hsetup, hl]

lemma applyActs_setup_loop (fs0 : FsState) (iters : List IterSpec)
    (suffix : List RecAct) :
    applyActs fs0 ([RecAct.truncVideo, RecAct.truncAudio] ++ (runLoop iters).1 ++ suffix) =
      applyActs { fs0 with tempVideo := true, tempAudio := true } suffix := by
  rw [applyActs_append, applyActs_append,
    applyActs_of_loopActs (runLoop iters).1 (runLoop_loop iters)]
  rfl

/-- C3: when the recording worker's loop terminates normally, a zero muxer exit
deletes both temp files and leaves the final output in place; a nonzero muxer
exit or a muxer launch failure makes the worker return the error with both
temp files still present and the deletion step never reached. -/
theorem C3_mux_cleanup (env : SetupEnv) (iters : List IterSpec) (fs0 : FsState)
    (hs : setupAll env = true) (hl : (runLoop iters).2 = true) :
    ((start_recording env iters (MuxOutcome.exited 0)).2 = Except.ok ()
      ∧ (applyActs fs0 (start_recording env iters (MuxOutcome.exited 0)).1).tempVideo = false
      ∧ (applyActs fs0 (start_recording env iters (MuxOutcome.exited 0)).1).tempAudio = false
      ∧ (applyActs fs0 (start_recording env iters (MuxOutcome.exited 0)).1).finalOut = true)
    ∧ (∀ c, (start_recording env iters (MuxOutcome.exited (c + 1))).2 =
          Except.error "ffmpeg command failed"
        ∧ RecAct.removeVideo ∉ (start_recording env iters (MuxOutcome.exited (c + 1))).1
        ∧ RecAct.removeAudio ∉ (start_recording env iters (MuxOutcome.exited (c + 1))).1
        ∧ (applyActs fs0 (start_recording env iters (MuxOutcome.exited (c + 1))).1).tempVideo = true
        ∧ (applyActs fs0 (start_recording env iters (MuxOutcome.exited (c + 1))).1).tempAudio = true)
    ∧ ((start_recording env iters MuxOutcome.launchFailure).2 =
          Except.error "ffmpeg launch failed"
        ∧ RecAct.removeVideo ∉ (start_recording env iters MuxOutcome.launchFailure).1
        ∧ RecAct.removeAudio ∉ (start_recording env iters MuxOutcome.launchFailure).1
        ∧ (applyActs fs0 (start_recording env iters MuxOutcome.launchFailure).1).tempVideo = true
        ∧ (applyActs fs0 (start_recording env iters MuxOutcome.launchFailure).1).tempAudio = true) := by
  refine ⟨?_, ?_, ?_⟩
  · have h0 := start_recording_trace_exit0 env iters hs hl
    refine ⟨by simp only [h0], ?_, ?_, ?_⟩ <;>
      · simp only [h0]
        rw [applyActs_setup_loop]
        rfl
  · intro c
    have h1 := start_recording_trace_exitS env iters c hs hl
    refine ⟨by simp only [h1], ?_, ?_, ?_, ?_⟩
    · simp only [h1]
      simp [removeVideo_notin_runLoop iters]
    · simp only [h1]
      simp [removeAudio_notin_runLoop iters]
    · simp only [h1]
      rw [applyActs_setup_loop]
      rfl
    · simp only [h1]
      rw [applyActs_setup_loop]
      rfl
  · have h2 := start_recording_trace_launchFail env iters hs hl
    refine ⟨by simp only [h2], ?_, ?_, ?_, ?_⟩
    · simp only [h2]
      simp [removeVideo_notin_runLoop iters]
    · simp only [h2]
      simp [removeAudio_notin_runLoop iters]
    · simp only [h2]
      rw [applyActs_setup_loop]
      rfl
    · simp only [h2]
      rw [applyActs_setup_loop]
      rfl

/-- The fully successful setup environment. -/
def envAllOk : SetupEnv := ⟨true, true, true, true, true, true, true⟩

/-- C3 witness: with successful setup and an empty loop, a zero muxer exit
returns ok and leaves the final file present with both temps deleted. -/
theorem C3_mux_cleanup_witness :
    (start_recording envAllOk [] (MuxOutcome.exited 0)).2 = Except.ok ()
    ∧ (applyActs ⟨false, false, false⟩
        (start_recording envAllOk [] (MuxOutcome.exited 0)).1).finalOut = true
    ∧ (applyActs ⟨false, false, false⟩
        (start_recording envAllOk [] (MuxOutcome.exited 0)).1).tempVideo = false := by
  have h := C3_mux_cleanup envAllOk [] ⟨false, false, false⟩ rfl rfl
  exact ⟨h.1.1, h.1.2.2.2, h.1.2.1⟩

/-- C9: if any iteration of the recording worker loop fails (camera read error,
render or video-sink write failure, codec rejection, or audio-sink write
failure), `start_recording` returns the error before the muxer step: ffmpeg is
never run, no temp file is removed, the final output is not created, and both
temp files remain in place. -/
theorem C9_loop_error_aborts (env : SetupEnv) (iters : List IterSpec)
    (mux : MuxOutcome) (fs0 : FsState)
    (hs : setupAll env = true)
    (hf : iters.any (fun it => !iterOk it) = true) :
    (start_recording env iters mux).2 = Except.error "worker loop failed"
    ∧ (∀ b, RecAct.runFfmpeg b ∉ (start_recording env iters mux).1)
    ∧ RecAct.removeVideo ∉ (start_recording env iters mux).1
    ∧ RecAct.removeAudio ∉ (start_recording env iters mux).1
    ∧ (applyActs fs0 (start_recording env iters mux).1).finalOut = fs0.finalOut
    ∧ (applyActs fs0 (start_recording env iters mux).1).tempVideo = true
    ∧ (applyActs fs0 (start_recording env iters mux).1).tempAudio = true := by
  have hl := runLoop_false_of_any_fail iters hf
  have hsetup := setupActs_of_all env hs
  have hsr : start_recording env iters mux =
      ([RecAct.truncVideo, RecAct.truncAudio] ++ (runLoop iters).1,
       Except.error "worker loop failed") := by
    simp [start_recording, hsetup, hl]
  refine ⟨by rw [hsr], ?_, ?_, ?_, ?_, ?_, ?_⟩
  · intro b
    rw [hsr]
    simp [runFfmpeg_notin_runLoop iters b]
  · rw [hsr]
    simp [removeVideo_notin_runLoop iters]
  · rw [hsr]
    simp [removeAudio_notin_runLoop iters]
  · rw [hsr]
    show (applyActs fs0 ([RecAct.truncVideo, RecAct.truncAudio] ++ (runLoop iters).1)).finalOut
      = fs0.finalOut
    rw [applyActs_append, applyActs_of_loopActs (runLoop iters).1 (runLoop_loop iters)]
    rfl
  · rw [hsr]
    show (applyActs fs0 ([RecAct.truncVideo, RecAct.truncAudio] ++ (runLoop iters).1)).tempVideo
      = true
    rw [applyActs_append, applyActs_of_loopActs (runLoop iters).1 (runLoop_loop iters)]
    rfl
  · rw [hsr]
    show (applyActs fs0 ([RecAct.truncVideo, RecAct.truncAudio] ++ (runLoop iters).1)).tempAudio
      = true
    rw [applyActs_append, applyActs_of_loopActs (runLoop iters).1 (runLoop_loop iters)]
    rfl

/-- An iteration whose camera read fails. -/
def failingIter : IterSpec := ⟨ReadOutcome.failed, true, true, 0, true, true⟩

/-- C9 witness: a single failing camera read makes the worker return the loop
error and ffmpeg never runs. -/
theorem C9_loop_error_aborts_witness :
    (start_recording envAllOk [failingIter] (MuxOutcome.exited 0)).2 =
      Except.error "worker loop failed"
    ∧ (∀ b, RecAct.runFfmpeg b ∉
        (start_recording envAllOk [failingIter] (MuxOutcome.exited 0)).1) := by
  have h := C9_loop_error_aborts envAllOk [failingIter] (MuxOutcome.exited 0)
    ⟨false, false, false⟩ rfl (by decide)
  exact ⟨h.1, h.2.1⟩

/-- A setup environment whose audio device lookup fails
(`default_input_device` returns `None`), everything else succeeding. -/
def envNoDevice : SetupEnv := ⟨true, true, false, true, true, true, true⟩

/-- C10 counterexample: a start request during which no audio input device is
available truncates `output_ascii.mp4` (the `VideoWriter` is created first) but
never reaches `File::create` for `output.opus`, so the old temp audio file is
not truncated — the recreation of both temp files is not unconditional. -/
theorem C10_truncation_counterexample :
    RecAct.truncAudio ∉ (start_recording envNoDevice [] (MuxOutcome.exited 0)).1
    ∧ RecAct.truncVideo ∈ (start_recording envNoDevice [] (MuxOutcome.exited 0)).1
    ∧ (start_recording envNoDevice [] (MuxOutcome.exited 0)).2 =
        Except.error "setup failed" :=
  ⟨by decide, by decide, rfl⟩

lemma setupActs_head (env : SetupEnv) (h1 : env.fourccOk = true)
    (h2 : env.videoWriterOk = true) :
    (setupActs env).1.head? = some RecAct.truncVideo := by
  unfold setupActs
  by_cases hd : env.deviceAvailable = true <;>
    by_cases he : env.encoderOk = true <;>
    by_cases hsb : env.streamBuildOk = true <;>
    by_cases hsp : env.streamPlayOk = true <;>
    by_cases haf : env.audioFileOk = true <;>
    simp [h1, h2, hd, he, hsb, hsp, haf]

lemma start_recording_trace_split (env : SetupEnv) (iters : List IterSpec)
    (mux : MuxOutcome) :
    ∃ rest, (start_recording env iters mux).1 = (setupActs env).1 ++ rest := by
  unfold start_recording
  by_cases hs : (setupActs env).2 = true
  · by_cases hl : (runLoop iters).2 = true
    · cases mux with
      | launchFailure =>
        exact ⟨(runLoop iters).1 ++ [RecAct.dropStream],
          by simp [hs, hl, List.append_assoc]⟩
      | exited c =>
        cases c with
        | zero =>
          exact ⟨(runLoop iters).1 ++ [RecAct.dropStream, RecAct.runFfmpeg true,
            RecAct.removeVideo, RecAct.removeAudio],
            by simp [hs, hl, List.append_assoc]⟩
        | succ n =>
          exact ⟨(runLoop iters).1 ++ [RecAct.dropStream, RecAct.runFfmpeg false],
            by simp [hs, hl, List.append_assoc]⟩
    · have hl2 : (runLoop iters).2 = false := by
        simpa using hl
      exact ⟨(runLoop iters).1, by simp [hs, hl2]⟩
  · have hs2 : (setupActs env).2 = false := by
      simpa using hs
    exact ⟨[], by simp [hs2]⟩

/-- C10 (amended): a start request whose whole setup phase succeeds recreates
both temp sink files, truncating them as its first two actions before any loop
or muxer work, whatever the muxer outcome and prior filesystem state; but the
recreation is conditional on setup order — whenever `VideoWriter` creation
succeeds, the trace begins by truncating `output_ascii.mp4`, while
`output.opus` is truncated only if the whole audio setup also succeeds. -/
theorem C10_temp_truncation (env : SetupEnv) (iters : List IterSpec)
    (mux : MuxOutcome) :
    (setupAll env = true →
      (start_recording env iters mux).1.take 2 =
        [RecAct.truncVideo, RecAct.truncAudio])
    ∧ (env.fourccOk = true → env.videoWriterOk = true →
        (start_recording env iters mux).1.head? = some RecAct.truncVideo) := by
  obtain ⟨rest, hr⟩ := start_recording_trace_split env iters mux
  constructor
  · intro hs
    rw [hr, setupActs_of_all env hs]
    rfl
  · intro h1 h2
    have hh := setupActs_head env h1 h2
    cases hsa : (setupActs env).1 with
    | nil =>
      rw [hsa] at hh
      simp at hh
    | cons a t =>
      rw [hsa] at hh
      simp at hh
      rw [hr, hsa, hh]
      rfl

/-- C10 witness: with the fully successful setup environment, a start's first
two actions truncate the temp video and temp audio files. -/
theorem C10_temp_truncation_witness :
    (start_recording envAllOk [] (MuxOutcome.exited 0)).1.take 2 =
      [RecAct.truncVideo, RecAct.truncAudio]
    ∧ (start_recording envAllOk [] (MuxOutcome.exited 0)).1.head? =
        some RecAct.truncVideo :=
  ⟨(C10_temp_truncation envAllOk [] (MuxOutcome.exited 0)).1 rfl,
   (C10_temp_truncation envAllOk [] (MuxOutcome.exited 0)).2 rfl rfl⟩

end WebcamArt
